import Mathlib

/-!
# Verification of the `slog-scope-futures` wrapper

Shallow embedding of the `SlogScope` future wrapper (`src/lib.rs`,
`src/future01.rs`, `src/future03.rs`).  The process-wide slog-scope
stack is made explicit as a `List Logger` threaded through every
operation; an asynchronous computation is a poll-step function that
receives a resumption context, its own state and the current scope
stack and returns a poll outcome, an updated state and an updated
stack.  Panics (unwinds) are embedded as `Except` failure values.
-/

/-- A structured logger handle (opaque to this crate): identified by id. -/
structure Logger where
  id : Nat
deriving DecidableEq, Repr

/-- The process-wide slog-scope stack of ambient loggers. -/
abbrev Stack := List Logger

/-- The ambient ("current") logger: the top of the scope stack, if any. -/
def currentLogger (s : Stack) : Option Logger := s.head?

/-- The external `slog_scope::scope` facility, per its contract: run the
given block with `l` pushed as the active entry of the scope stack and
restore the previous stack state afterward, on every exit path
(the restoration is performed by a guard, so it also happens when the
block unwinds). -/
def scope {γ : Type} (l : Logger) (body : Stack → γ × Stack) (s : Stack) : γ × Stack :=
  ((body (l :: s)).1, s)

/-- The resumption context (`&mut Context<'_>`) handed over by the host
runtime; opaque to the wrapper, identified by id. -/
structure Ctx where
  id : Nat
deriving DecidableEq, Repr

/-- A panic payload (the failure signal of an unwinding poll). -/
abbrev Panic := Nat

/-- `std::task::Poll<α>`: the outcome of one resumption. -/
inductive Poll03 (α : Type) where
  | ready (a : α)
  | pending
deriving DecidableEq, Repr

/-- A `std::future::Future` with state type `σ` and output `α`: its
`poll` takes the resumption context, the future's internal state and
the scope stack; it returns either a panic signal or a poll outcome,
together with the updated state and stack. -/
structure Future03 (σ α : Type) where
  run : Ctx → σ → Stack → (Except Panic (Poll03 α)) × σ × Stack

/-- `futures 0.1` `Async<α>`. -/
inductive Async01 (α : Type) where
  | ready (a : α)
  | notReady
deriving DecidableEq, Repr

/-- `futures 0.1` `Poll<Item, Error> = Result<Async<Item>, Error>`. -/
abbrev Poll01 (α ε : Type) := Except ε (Async01 α)

/-- A `futures 0.1` future: its `poll` takes no context; the error
channel is the failure signal. -/
structure Future01 (σ α ε : Type) where
  run : σ → Stack → Poll01 α ε × σ × Stack

/-- `L: Borrow<Logger>`: the logger handle can be viewed as a logger
reference. -/
class Borrow (L : Type) where
  borrow : L → Logger

/-- An owned logger borrows as itself (`impl Borrow<Logger> for Logger`). -/
instance : Borrow Logger := ⟨id⟩

/-- A borrowed logger handle (`&Logger`): a stable reference to a logger
owned elsewhere. -/
structure LoggerRef where
  get : Logger
deriving DecidableEq, Repr

/-- A logger reference borrows the referred logger. -/
instance : Borrow LoggerRef := ⟨LoggerRef.get⟩

/-- `SlogScope<L, F>`: a future wrapped in a slog scope (`src/lib.rs`). -/
structure SlogScope (L : Type) (F : Type) where
  logger : L
  inner : F

/-- `SlogScope::new`: wrap a future in a slog scope.  Pure data
assembly, no validation. -/
def SlogScope.new {L F : Type} (logger : L) (inner : F) : SlogScope L F :=
  { logger := logger, inner := inner }

/-- `SlogScope::new` embedded into the stateful world: the constructor
performs no `slog_scope` call, so in state-passing style it is the
identity on the scope stack. -/
def SlogScope.newOp {L F : Type} (logger : L) (inner : F) (s : Stack) :
    SlogScope L F × Stack :=
  (SlogScope.new logger inner, s)

/-- `<SlogScope as std::future::Future>::poll` (`src/lib.rs` lines
138-144, identical in `src/future03.rs`): run exactly one poll of the
inner future, with the supplied context, inside
`slog_scope::scope(logger.borrow(), ...)`. -/
def SlogScope.poll03 {L σ α : Type} [Borrow L] (w : SlogScope L (Future03 σ α))
    (cx : Ctx) (st : σ) (s : Stack) : ((Except Panic (Poll03 α)) × σ) × Stack :=
  scope (Borrow.borrow w.logger)
    (fun k =>
      let r := w.inner.run cx st k
      ((r.1, r.2.1), r.2.2)) s

/-- `<SlogScope as futures::Future>::poll` (`src/future01.rs` lines
16-21): run exactly one poll of the inner future inside
`slog_scope::scope(logger.borrow(), ...)`. -/
def SlogScope.poll01 {L σ α ε : Type} [Borrow L] (w : SlogScope L (Future01 σ α ε))
    (st : σ) (s : Stack) : (Poll01 α ε × σ) × Stack :=
  scope (Borrow.borrow w.logger)
    (fun k =>
      let r := w.inner.run st k
      ((r.1, r.2.1), r.2.2)) s

/-- `FutureExt::with_logger` (`src/lib.rs` lines 150-160): chaining
convenience, delegates to `SlogScope::new`. -/
def FutureExt.with_logger {L F : Type} (f : F) (logger : L) : SlogScope L F :=
  SlogScope.new logger f

/-- Instrument a future so that every invocation of its poll is
recorded: the state carries a log of the (context, scope stack) pairs
each call received. -/
def observeCalls {σ α : Type} (f : Future03 σ α) :
    Future03 (σ × List (Ctx × Stack)) α :=
  ⟨fun cx p k =>
    let r := f.run cx p.1 k
    (r.1, (r.2.1, p.2 ++ [(cx, k)]), r.2.2)⟩

/-- Instrument a `futures 0.1` future likewise, recording the scope
stack each poll call received. -/
def observeCalls01 {σ α ε : Type} (f : Future01 σ α ε) :
    Future01 (σ × List Stack) α ε :=
  ⟨fun p k =>
    let r := f.run p.1 k
    (r.1, (r.2.1, p.2 ++ [k]), r.2.2)⟩

/-- Resume a wrapped future `n` times in a row, threading the inner
state and the scope stack (discarding poll outcomes). -/
def SlogScope.drive {L σ α : Type} [Borrow L] (w : SlogScope L (Future03 σ α))
    (cx : Ctx) : Nat → σ → Stack → σ × Stack
  | 0, st, s => (st, s)
  | n + 1, st, s =>
    let r := w.poll03 cx st s
    SlogScope.drive w cx n r.1.2 r.2

/-- A concrete logger for scenario proofs. -/
def L1 : Logger := ⟨1⟩

/-- A second concrete logger for nesting scenarios. -/
def L2 : Logger := ⟨2⟩

/-- A future that immediately completes with value `42`. -/
def const42 : Future03 Unit Nat :=
  ⟨fun _ st k => (Except.ok (Poll03.ready 42), st, k)⟩

/-- A future that immediately completes with the ambient logger it
observes at poll time. -/
def probeAmbient : Future03 Unit (Option Logger) :=
  ⟨fun _ st k => (Except.ok (Poll03.ready (currentLogger k)), st, k)⟩

/-- A future that immediately completes with the entire scope stack it
observes at poll time. -/
def probeStack : Future03 Unit Stack :=
  ⟨fun _ st k => (Except.ok (Poll03.ready k), st, k)⟩

/-- A future whose poll panics with payload `7`. -/
def panicAt7 : Future03 Unit Nat :=
  ⟨fun _ st k => (Except.error 7, st, k)⟩

/-- A future that completes with `1` on its first poll and, if polled
again after completion, completes with `2`: distinguishes a fused
wrapper from a delegating one. -/
def fuseProbe : Future03 Bool Nat :=
  ⟨fun _ b k =>
    if b then (Except.ok (Poll03.ready 2), true, k)
    else (Except.ok (Poll03.ready 1), true, k)⟩

/-- An inner computation that records the ambient logger before,
during, and after synchronously resuming a nested `SlogScope` wrapper
carrying logger `L2`: it returns the ambient logger it sees on entry,
the full scope stack the innermost computation sees, and the ambient
logger it sees right after the nested resumption returns. -/
def nestedInner : Future03 Unit (Option Logger × Stack × Option Logger) :=
  ⟨fun cx st k =>
    let before := currentLogger k
    let r := (SlogScope.new L2 probeStack).poll03 cx () k
    let during : Stack :=
      match r.1.1 with
      | Except.ok (Poll03.ready s2) => s2
      | _ => []
    let after := currentLogger r.2
    (Except.ok (Poll03.ready (before, during, after)), st, r.2)⟩

/-- Translate a `futures 0.1` poll outcome to the `std::future` world:
the error channel folds into the output (`Output = Result<Item, Error>`). -/
def adaptPoll01 {α ε : Type} (p : Poll01 α ε) : Except Panic (Poll03 (Except ε α)) :=
  match p with
  | Except.ok (Async01.ready a) => Except.ok (Poll03.ready (Except.ok a))
  | Except.ok Async01.notReady => Except.ok Poll03.pending
  | Except.error e => Except.ok (Poll03.ready (Except.error e))

/-- Adapt a `futures 0.1` future to the `std::future` interface
(ignoring the context, folding the error channel into the output). -/
def adapt01to03 {σ α ε : Type} (f : Future01 σ α ε) : Future03 σ (Except ε α) :=
  ⟨fun _ st k =>
    let r := f.run st k
    (adaptPoll01 r.1, r.2.1, r.2.2)⟩

/-- Helper: driving a wrapped future any number of times leaves the
scope stack exactly as it started. -/
theorem drive_stack_eq {L σ α : Type} [Borrow L] (w : SlogScope L (Future03 σ α))
    (cx : Ctx) : ∀ (n : Nat) (st : σ) (s : Stack), (w.drive cx n st s).2 = s := by
  intro n
  induction n with
  | zero => intro st s; rfl
  | succ n ih => intro st s; simp [SlogScope.drive, SlogScope.poll03, scope, ih]

/-- Claim C1: during any call to the wrapper's poll, the inner
computation is invoked with the wrapper's logger pushed on top of the
scope stack, so any query of the ambient logger it makes observes the
wrapper's logger: the recorded invocation of the instrumented inner
future received exactly the stack `borrow l :: s`, whose current
logger is `borrow l`. -/
theorem slogScope_poll03_inner_sees_wrapper_logger {L σ α : Type} [Borrow L]
    (l : L) (f : Future03 σ α) (cx : Ctx) (st : σ)
    (log : List (Ctx × Stack)) (s : Stack) :
    (((SlogScope.new l (observeCalls f)).poll03 cx (st, log) s).1.2).2
      = log ++ [(cx, Borrow.borrow l :: s)] ∧
    currentLogger (Borrow.borrow l :: s) = some (Borrow.borrow l) := by
  exact ⟨rfl, rfl⟩

/-- Claim C1 witness: instantiated at `L1`, a concrete future and a
concrete prior stack. -/
theorem slogScope_poll03_inner_sees_wrapper_logger_witness :
    (((SlogScope.new L1 (observeCalls const42)).poll03 ⟨0⟩ ((), []) [L2]).1.2).2
      = [] ++ [(⟨0⟩, Borrow.borrow L1 :: [L2])] ∧
    currentLogger (Borrow.borrow L1 :: [L2]) = some (Borrow.borrow L1) :=
  slogScope_poll03_inner_sees_wrapper_logger L1 const42 ⟨0⟩ () [] [L2]

/-- Claim C2: immediately after any resumption call of the wrapper
returns — whatever the inner future did — the scope stack equals
exactly what it was before the call, and the same holds after any
number of successive resumptions. -/
theorem slogScope_poll03_restores_stack {L σ α : Type} [Borrow L]
    (l : L) (f : Future03 σ α) (cx : Ctx) (st : σ) (s : Stack) :
    ((SlogScope.new l f).poll03 cx st s).2 = s ∧
    ∀ n : Nat, ((SlogScope.new l f).drive cx n st s).2 = s := by
  exact ⟨rfl, fun n => drive_stack_eq (SlogScope.new l f) cx n st s⟩

/-- Claim C3: the wrapper returns to the caller exactly the outcome and
state produced by the inner future's poll, unchanged; in particular a
wrapped immediately-ready-42 future completes with 42 on the first
resumption, and a probe reading the ambient logger from inside the
wrapped computation returns the wrapper's logger `L1`. -/
theorem slogScope_poll03_propagates_result {L σ α : Type} [Borrow L]
    (l : L) (f : Future03 σ α) (cx : Ctx) (st : σ) (s : Stack) :
    ((SlogScope.new l f).poll03 cx st s).1.1
      = (f.run cx st (Borrow.borrow l :: s)).1 ∧
    ((SlogScope.new l f).poll03 cx st s).1.2
      = (f.run cx st (Borrow.borrow l :: s)).2.1 ∧
    ((SlogScope.new L1 const42).poll03 cx () s).1.1
      = Except.ok (Poll03.ready 42) ∧
    ((SlogScope.new L1 probeAmbient).poll03 cx () s).1.1
      = Except.ok (Poll03.ready (some L1)) := by
  exact ⟨rfl, rfl, rfl, rfl⟩

/-- Claim C4: if the inner future's poll raises a failure signal, the
wrapper surfaces the very same failure value to the caller, and the
scope stack is restored to its pre-call state before the failure
reaches the caller. -/
theorem slogScope_poll03_propagates_failure {L σ α : Type} [Borrow L]
    (l : L) (f : Future03 σ α) (cx : Ctx) (st : σ) (s : Stack) (e : Panic)
    (h : (f.run cx st (Borrow.borrow l :: s)).1 = Except.error e) :
    ((SlogScope.new l f).poll03 cx st s).1.1 = Except.error e ∧
    ((SlogScope.new l f).poll03 cx st s).2 = s := by
  refine ⟨?_, rfl⟩
  simpa [SlogScope.poll03, SlogScope.new, scope] using h

/-- Claim C4 witness: a future panicking with payload `7`, wrapped with
`L1`, starting from stack `[L2]`. -/
theorem slogScope_poll03_propagates_failure_witness :
    ((SlogScope.new L1 panicAt7).poll03 ⟨0⟩ () [L2]).1.1 = Except.error 7 ∧
    ((SlogScope.new L1 panicAt7).poll03 ⟨0⟩ () [L2]).2 = [L2] :=
  slogScope_poll03_propagates_failure L1 panicAt7 ⟨0⟩ () [L2] 7 rfl

/-- Claim C5: wrapping via the chaining convenience `with_logger`
yields the very wrapper produced by explicit construction, for any
logger handle and inner value, and hence the two behave identically on
every resumption. -/
theorem with_logger_eq_new :
    (∀ (L F : Type) (l : L) (f : F),
      FutureExt.with_logger f l = SlogScope.new l f) ∧
    (∀ (L σ α : Type) [Borrow L] (l : L) (f : Future03 σ α)
        (cx : Ctx) (st : σ) (s : Stack),
      (FutureExt.with_logger f l).poll03 cx st s
        = (SlogScope.new l f).poll03 cx st s) := by
  exact ⟨fun _ _ _ _ => rfl, fun _ _ _ _ _ _ _ _ _ => rfl⟩

/-- Claim C6: construction is pure data assembly — it always succeeds,
returns exactly the record of its two arguments, and, embedded into the
stateful world, performs no push: the scope stack after construction is
the scope stack before it. -/
theorem slogScope_new_pure_no_push {L F : Type} (l : L) (f : F) (s : Stack) :
    (SlogScope.newOp l f s).2 = s ∧
    (SlogScope.newOp l f s).1 = { logger := l, inner := f } ∧
    currentLogger (SlogScope.newOp l f s).2 = currentLogger s := by
  exact ⟨rfl, rfl, rfl⟩

/-- Claim C7: with an outer wrapper carrying `L1` whose inner
computation synchronously resumes a nested wrapper carrying `L2`, the
inner computation sees ambient logger `L1` on entry, the innermost
computation sees the stack `L2 :: L1 :: s` (so ambient `L2` with `L1`
still pushed), and right after the nested resumption returns — still
inside the outer resumption — the ambient logger is `L1` again; the
outer call restores the original stack. -/
theorem nested_scopes_stack_order (cx : Ctx) (s : Stack) :
    ((SlogScope.new L1 nestedInner).poll03 cx () s).1.1
      = Except.ok (Poll03.ready (some L1, L2 :: L1 :: s, some L1)) ∧
    ((SlogScope.new L1 nestedInner).poll03 cx () s).2 = s := by
  exact ⟨rfl, rfl⟩

/-- Claim C8: each call of the wrapper's poll invokes the inner
future's poll exactly once, passing through the very resumption context
the wrapper received, unchanged: the instrumented inner future records
exactly one new invocation, carrying that context. -/
theorem slogScope_poll03_polls_inner_exactly_once {L σ α : Type} [Borrow L]
    (l : L) (f : Future03 σ α) (cx : Ctx) (st : σ)
    (log : List (Ctx × Stack)) (s : Stack) :
    (((SlogScope.new l (observeCalls f)).poll03 cx (st, log) s).1.2).2
      = log ++ [(cx, Borrow.borrow l :: s)] ∧
    ((((SlogScope.new l (observeCalls f)).poll03 cx (st, log) s).1.2).2).length
      = log.length + 1 := by
  refine ⟨rfl, ?_⟩
  show (log ++ [(cx, Borrow.borrow l :: s)]).length = log.length + 1
  simp

/-- Claim C9: the wrapper does not fuse the inner future — even when
the inner future has already completed on an earlier resumption
(hypothesis: polling it at some earlier state returned ready and left
it in the current state), a further poll of the wrapper still delegates
to the inner future's poll inside the scope, returning exactly its
outcome and updated state. -/
theorem slogScope_poll03_no_fuse {L σ α : Type} [Borrow L]
    (l : L) (f : Future03 σ α) (cx0 cx : Ctx) (st0 st : σ)
    (k0 s : Stack) (a : α)
    (hdone : (f.run cx0 st0 k0).1 = Except.ok (Poll03.ready a) ∧
      (f.run cx0 st0 k0).2.1 = st) :
    ((SlogScope.new l f).poll03 cx st s).1.1
      = (f.run cx st (Borrow.borrow l :: s)).1 ∧
    ((SlogScope.new l f).poll03 cx st s).1.2
      = (f.run cx st (Borrow.borrow l :: s)).2.1 := by
  exact ⟨rfl, rfl⟩

/-- Claim C9 witness: `fuseProbe` completes with `1` on its first poll
(state `false` to `true`); polling the wrapper again at state `true`
still delegates, yielding the inner future's post-completion behavior
(ready `2`). -/
theorem slogScope_poll03_no_fuse_witness :
    ((SlogScope.new L1 fuseProbe).poll03 ⟨0⟩ true []).1.1
      = (fuseProbe.run ⟨0⟩ true (Borrow.borrow L1 :: [])).1 ∧
    ((SlogScope.new L1 fuseProbe).poll03 ⟨0⟩ true []).1.2
      = (fuseProbe.run ⟨0⟩ true (Borrow.borrow L1 :: [])).2.1 :=
  slogScope_poll03_no_fuse L1 fuseProbe ⟨0⟩ ⟨0⟩ false true [] [] 1 ⟨rfl, rfl⟩

/-- Claim C10: the `futures 0.1` and `std::future` implementations of
poll apply the identical scope discipline and are equivalent modulo the
resumption-model interface: adapting a 0.1 future to the std interface
and wrapping it gives, on every resumption, exactly the translation of
what the 0.1 wrapper produces; and the 0.1 wrapper, like the std one,
invokes its inner future exactly once, at stack `borrow l :: s`. -/
theorem poll01_poll03_equivalent {L σ α ε : Type} [Borrow L]
    (l : L) (f : Future01 σ α ε) (cx : Ctx) (st : σ)
    (log : List Stack) (s : Stack) :
    (SlogScope.new l (adapt01to03 f)).poll03 cx st s
      = ((adaptPoll01 ((SlogScope.new l f).poll01 st s).1.1,
          ((SlogScope.new l f).poll01 st s).1.2),
         ((SlogScope.new l f).poll01 st s).2) ∧
    (((SlogScope.new l (observeCalls01 f)).poll01 (st, log) s).1.2).2
      = log ++ [Borrow.borrow l :: s] := by
  exact ⟨rfl, rfl⟩
